import Mathlib

/-
Shallow embedding of src/coilmq/frame.py: the StompFrame convenience class,
the HeaderValue deferred-value class and the four server frame variants
(ConnectedFrame, MessageFrame, ErrorFrame, ReceiptFrame).  Python exceptions
become an Except error value; mutable attributes of a frame object become the
fields of a record; the deferred calculators of the source are all closures
reading the current body of the owning frame, so closures are embedded as
functions of the current body, applied at resolution time.
-/

/-- The error outcomes of this layer: invalidCommandError embeds the
FrameError raised by the cmd property setter of the external stomper.Frame
superclass (named InvalidCommandError by the spec); invalidArgumentError
embeds the ValueError raised by HeaderValue.__init__ on a non-callable
calculator (named InvalidArgumentError by the spec), carrying its message. -/
inductive PyError where
  | invalidCommandError (cmd : String)
  | invalidArgumentError (msg : String)
deriving DecidableEq

/-- A value stored in the headers dict of a frame: either a plain string, as
stored by ConnectedFrame, ErrorFrame and ReceiptFrame, or a HeaderValue object
wrapping a deferred calculator.  Every calculator in the source is of the form
lambda: len(self.body), a closure reading the current body of the owning
frame, so the calculator is embedded as a function of the current body. -/
inductive HeaderValue where
  | literal (s : String)
  | deferred (calcf : String → Int)

/-- Resolution of a header value against the current body of the frame: a
plain string is returned as is, and a deferred value re-invokes its calculator
and converts the result to a string (HeaderValue.__str__).  No result is
cached anywhere, exactly as in the source, which stores only the calculator. -/
def HeaderValue.resolve (hv : HeaderValue) (currentBody : String) : String :=
  match hv with
  | .literal s => s
  | .deferred calcf => toString (calcf currentBody)

/-- The argument handed to HeaderValue.__init__: either a genuine callable
calculator (a closure over the frame body, embedded as a function of the
body), or a non-callable value such as the integer 42, kept as the display
string that the source interpolates into the error message. -/
inductive CalcArg where
  | fn (calcf : String → Int)
  | notCallable (displayed : String)

/-- HeaderValue.__init__(calc): rejects a non-callable calculator by raising
ValueError("Non-callable param: ...") and otherwise stores the calculator. -/
def HeaderValue.init (calcArg : CalcArg) : Except PyError HeaderValue :=
  match calcArg with
  | .fn f => .ok (.deferred f)
  | .notCallable s => .error (.invalidArgumentError ("Non-callable param: " ++ s))

/-- Modelled from the spec: the recognized STOMP verb set is held by the
external stomper library, which is not under src/.  The spec names CONNECTED,
MESSAGE, ERROR and RECEIPT as the server verbs and CONNECT, SEND, SUBSCRIBE
among the client verbs of the closed STOMP v1.0 set. -/
def VALID_COMMANDS : List String :=
  ["ABORT", "ACK", "BEGIN", "COMMIT", "CONNECT", "CONNECTED", "DISCONNECT",
   "MESSAGE", "SEND", "SUBSCRIBE", "UNSUBSCRIBE", "RECEIPT", "ERROR"]

/-- The observable state of a frame object after construction: the command
slot (left unset when the constructor received a falsy cmd), the headers dict
(an association list with unique keys) and the body string. -/
structure StompFrame where
  cmd : Option String
  headers : List (String × HeaderValue)
  body : String

/-- Modelled from the spec: the cmd property setter of the external
stomper.Frame superclass validates the command against the recognized verb set
and fails with InvalidCommandError otherwise. -/
def StompFrame.setCmd (f : StompFrame) (c : String) : Except PyError StompFrame :=
  if c ∈ VALID_COMMANDS then .ok { f with cmd := some c }
  else .error (.invalidCommandError c)

/-- StompFrame.__init__(cmd=None, headers=None, body=None): body defaults to
the empty string, headers defaults to a fresh empty dict, and the command is
assigned through the validating cmd setter only when truthy, that is, neither
None nor the empty string. -/
def StompFrame.init (cmd : Option String) (headers : Option (List (String × HeaderValue)))
    (body : Option String) : Except PyError StompFrame := do
  let b := body.getD ""
  let hs := headers.getD []
  let start : StompFrame := { cmd := none, headers := [], body := "" }
  let f ← match cmd with
    | some c => if c = "" then pure start else StompFrame.setCmd start c
    | none => pure start
  pure { f with body := b, headers := hs }

/-- The character translation applied by StompFrame.__getattr__ before the
dict lookup: name.replace with the two one-character arguments replaces every
hyphen of the name with an underscore, which is exactly a character map. -/
def dashToUnderscore (s : String) : String :=
  String.mk (s.data.map (fun c => if c = '-' then '_' else c))

/-- StompFrame.__getattr__(name), the header accessor the spec calls
get_header: returns headers.get of the translated name; a dict get never
raises and yields None when the key is absent. -/
def StompFrame.getattr (f : StompFrame) (name : String) : Option HeaderValue :=
  f.headers.lookup (dashToUnderscore name)

/-- Assignment into the headers dict of a frame: overwrite the entry when the
key is already present, append the pair otherwise. -/
def setHeader (hs : List (String × HeaderValue)) (k : String) (v : HeaderValue) :
    List (String × HeaderValue) :=
  if hs.any (fun p => p.1 == k) then
    hs.map (fun p => if p.1 == k then (k, v) else p)
  else hs ++ [(k, v)]

/-- ConnectedFrame.__init__(session): StompFrame.__init__ with command
CONNECTED and the single header session mapped to the session string. -/
def ConnectedFrame.init (session : String) : Except PyError StompFrame :=
  StompFrame.init (some "CONNECTED") (some [("session", HeaderValue.literal session)]) none

/-- MessageFrame.__init__(body=None): StompFrame.__init__ with command MESSAGE
and the given body, then the deferred assignment
headers["content-length"] = HeaderValue(calc=lambda: len(self.body)). -/
def MessageFrame.init (body : Option String) : Except PyError StompFrame := do
  let f ← StompFrame.init (some "MESSAGE") none body
  let hv ← HeaderValue.init (CalcArg.fn (fun b => (b.length : Int)))
  pure { f with headers := setHeader f.headers "content-length" hv }

/-- ErrorFrame.__init__(message, body=None): command ERROR, the given (or
empty) body, the header message mapped to the message string, and the deferred
header content-length computing len of the current body. -/
def ErrorFrame.init (message : String) (body : Option String) : Except PyError StompFrame := do
  let f ← StompFrame.init (some "ERROR") none body
  let hs := setHeader f.headers "message" (HeaderValue.literal message)
  let hv ← HeaderValue.init (CalcArg.fn (fun b => (b.length : Int)))
  pure { f with headers := setHeader hs "content-length" hv }

/-- The rendering of a plain string under the %r conversion, for the
quote-free strings this layer formats. -/
def pyRepr (s : String) : String := "'" ++ s ++ "'"

/-- ErrorFrame.__repr__: the diagnostic string built from the message header;
None stands for the KeyError the Python subscript would raise when the message
header is missing, and a HeaderValue object would render through its own repr. -/
def ErrorFrame.describe (f : StompFrame) : Option String :=
  (f.headers.lookup "message").map (fun hv =>
    match hv with
    | .literal s => "<ErrorFrame message=" ++ pyRepr s ++ ">"
    | .deferred _ => "<ErrorFrame message=<HeaderValue>>")

/-- ReceiptFrame.__init__(receipt): StompFrame.__init__ with command RECEIPT
and the single header receipt mapped to the receipt string. -/
def ReceiptFrame.init (receipt : String) : Except PyError StompFrame :=
  StompFrame.init (some "RECEIPT") (some [("receipt", HeaderValue.literal receipt)]) none

/-- A dict lookup misses whenever the looked-up key equals no stored key. -/
theorem lookup_none_of_not_mem (l : List (String × HeaderValue)) (k : String)
    (h : k ∉ l.map Prod.fst) : l.lookup k = none := by
  induction l with
  | nil => rfl
  | cons p t ih =>
    simp only [List.map_cons, List.mem_cons, not_or] at h
    obtain ⟨h1, h2⟩ := h
    simp [List.lookup, beq_eq_false_iff_ne.mpr h1, ih h2]

/-- C1: resolving the content-length header of a MESSAGE frame is uncached and
reflects the body at the moment of resolution: built with body 12345 the
stored deferred value resolves to 5, and after the body is mutated to 1234567
the same stored header resolves to 7; in general, for any initial body and any
later body, each resolution re-invokes the calculator on the current body and
converts the resulting length to a string. -/
theorem C1_deferred_resolution_uncached :
    (∀ b b' : String, ∃ f : StompFrame,
      MessageFrame.init (some b) = Except.ok f ∧
      (f.headers.lookup "content-length").map (fun hv => hv.resolve f.body)
        = some (toString (b.length : Int)) ∧
      (({ f with body := b' } : StompFrame).headers.lookup "content-length").map
          (fun hv => hv.resolve b') = some (toString ((b' : String).length : Int))) ∧
    (∃ f : StompFrame, MessageFrame.init (some "12345") = Except.ok f ∧
      (f.headers.lookup "content-length").map (fun hv => hv.resolve f.body) = some "5" ∧
      (({ f with body := "1234567" } : StompFrame).headers.lookup "content-length").map
          (fun hv => hv.resolve "1234567") = some "7") :=
  ⟨fun b b' => ⟨_, rfl, rfl, rfl⟩, ⟨_, rfl, rfl, rfl⟩⟩

/-- C2: construction validates the command: every verb of the recognized set
is accepted and reported back as the command of the frame, and any truthy
command outside the set makes construction fail with InvalidCommandError, so
no frame is produced. -/
theorem C2_command_validation :
    (∀ c ∈ VALID_COMMANDS, ∃ f : StompFrame,
      StompFrame.init (some c) none none = Except.ok f ∧ f.cmd = some c) ∧
    (∀ c : String, c ≠ "" → c ∉ VALID_COMMANDS →
      StompFrame.init (some c) none none = Except.error (PyError.invalidCommandError c)) := by
  constructor
  · intro c hc
    simp only [VALID_COMMANDS, List.mem_cons, List.not_mem_nil, or_false] at hc
    rcases hc with rfl | rfl | rfl | rfl | rfl | rfl | rfl | rfl | rfl | rfl | rfl | rfl | rfl
    all_goals exact ⟨_, rfl, rfl⟩
  · intro c h1 h2
    simp [StompFrame.init, StompFrame.setCmd, h1, h2, Bind.bind, Except.bind]

/-- Witness for C2 at the recognized verb CONNECT and the unrecognized
command FOO. -/
theorem C2_command_validation_witness :
    (∃ f : StompFrame, StompFrame.init (some "CONNECT") none none = Except.ok f ∧
      f.cmd = some "CONNECT") ∧
    StompFrame.init (some "FOO") none none
      = Except.error (PyError.invalidCommandError "FOO") :=
  ⟨C2_command_validation.1 "CONNECT" (by decide),
   C2_command_validation.2 "FOO" (by decide) (by decide)⟩

/-- C3, evaluated at the failing input: the accessor translates hyphens to
underscores before the dict lookup, so on a frame whose headers dict stores
the key message-id, looking up the name message-id returns the absent result
instead of the stored value — although the docstring of StompFrame.__getattr__
promises that the stored message-id entry and the attribute lookup agree — and
a header stored under message_id is returned for the name message-id, showing
a character translation is applied to the name. -/
theorem C3_lookup_is_translated_not_exact :
    StompFrame.getattr
      { cmd := some "MESSAGE",
        headers := [("message-id", HeaderValue.literal "x")], body := "" }
      "message-id" = none ∧
    StompFrame.getattr
      { cmd := some "MESSAGE",
        headers := [("message_id", HeaderValue.literal "x")], body := "" }
      "message-id" = some (HeaderValue.literal "x") :=
  ⟨rfl, rfl⟩

/-- Counterexample to C4 as stated: on a frame whose only stored header key is
a_b, the name a-b was never set, and yet the accessor does not return the
absent result — the name is translated to a_b before the dict lookup. -/
theorem C4_counterexample :
    "a-b" ∉ (([("a_b", HeaderValue.literal "v")] :
        List (String × HeaderValue)).map Prod.fst) ∧
    StompFrame.getattr
      { cmd := none, headers := [("a_b", HeaderValue.literal "v")], body := "" }
      "a-b" = some (HeaderValue.literal "v") :=
  ⟨by decide, rfl⟩

/-- C4 amended: the accessor is a total dict get that never raises, and it
returns the absent result exactly for the names whose hyphen-to-underscore
translation is absent from the stored header keys. -/
theorem C4_absent_header_lookup (f : StompFrame) (name : String)
    (h : dashToUnderscore name ∉ f.headers.map Prod.fst) :
    StompFrame.getattr f name = none :=
  lookup_none_of_not_mem f.headers (dashToUnderscore name) h

/-- Witness for the amended C4 at a frame with one unrelated header. -/
theorem C4_absent_header_lookup_witness :
    dashToUnderscore "x-y"
      ∉ (([("other", HeaderValue.literal "v")] :
          List (String × HeaderValue)).map Prod.fst) ∧
    StompFrame.getattr
      { cmd := none, headers := [("other", HeaderValue.literal "v")], body := "" }
      "x-y" = none :=
  ⟨by decide,
   C4_absent_header_lookup
     { cmd := none, headers := [("other", HeaderValue.literal "v")], body := "" }
     "x-y" (by decide)⟩

/-- C5: constructing a HeaderValue from a non-callable calculator, such as the
integer 42, fails with the ValueError the spec names InvalidArgumentError,
while any callable calculator is accepted and stored unchanged. -/
theorem C5_calculator_must_be_callable :
    HeaderValue.init (CalcArg.notCallable "42")
      = Except.error (PyError.invalidArgumentError "Non-callable param: 42") ∧
    (∀ f : String → Int,
      HeaderValue.init (CalcArg.fn f) = Except.ok (HeaderValue.deferred f)) :=
  ⟨rfl, fun _ => rfl⟩

/-- C6: for every message and body, the ERROR frame builder yields command
ERROR, the header message holding exactly the given message string, a
content-length header resolving to the length of the current body — in
particular 7 for the body details — and a diagnostic description that surfaces
the message. -/
theorem C6_error_frame :
    (∀ message body : String, ∃ f : StompFrame,
      ErrorFrame.init message (some body) = Except.ok f ∧
      f.cmd = some "ERROR" ∧
      f.headers.lookup "message" = some (HeaderValue.literal message) ∧
      (f.headers.lookup "content-length").map (fun hv => hv.resolve f.body)
        = some (toString ((body : String).length : Int)) ∧
      ErrorFrame.describe f = some ("<ErrorFrame message=" ++ pyRepr message ++ ">")) ∧
    (∃ f : StompFrame, ErrorFrame.init "bad frame" (some "details") = Except.ok f ∧
      f.headers.lookup "message" = some (HeaderValue.literal "bad frame") ∧
      (f.headers.lookup "content-length").map (fun hv => hv.resolve f.body) = some "7") :=
  ⟨fun message body => ⟨_, rfl, rfl, rfl, rfl, rfl⟩, ⟨_, rfl, rfl, rfl⟩⟩

/-- C7: for every session string, the CONNECTED frame builder yields command
CONNECTED, the header session resolving to exactly the given session string,
and an empty body. -/
theorem C7_connected_frame :
    ∀ session : String, ∃ f : StompFrame,
      ConnectedFrame.init session = Except.ok f ∧
      f.cmd = some "CONNECTED" ∧
      (f.headers.lookup "session").map (fun hv => hv.resolve f.body) = some session ∧
      f.body = "" :=
  fun session => ⟨_, rfl, rfl, rfl, rfl⟩

/-- C8: for every receipt string, the RECEIPT frame builder yields command
RECEIPT, the header receipt resolving to exactly the given receipt string and
an empty body; and immediately after each of the four variant builders
returns, every protocol-mandated header of that frame kind is present. -/
theorem C8_receipt_frame_and_mandated_headers :
    ∀ receipt session message body : String,
      (∃ f : StompFrame, ReceiptFrame.init receipt = Except.ok f ∧
        f.cmd = some "RECEIPT" ∧
        (f.headers.lookup "receipt").map (fun hv => hv.resolve f.body) = some receipt ∧
        f.body = "") ∧
      (∃ f : StompFrame, ConnectedFrame.init session = Except.ok f ∧
        (f.headers.lookup "session").isSome) ∧
      (∃ f : StompFrame, MessageFrame.init (some body) = Except.ok f ∧
        (f.headers.lookup "content-length").isSome) ∧
      (∃ f : StompFrame, ErrorFrame.init message (some body) = Except.ok f ∧
        (f.headers.lookup "message").isSome ∧
        (f.headers.lookup "content-length").isSome) :=
  fun receipt session message body =>
    ⟨⟨_, rfl, rfl, rfl, rfl⟩, ⟨_, rfl, rfl⟩, ⟨_, rfl, rfl⟩, ⟨_, rfl, rfl, rfl⟩⟩

/-- C9: a falsy command skips validation entirely: constructing with command
None or with the empty string succeeds, whatever the headers and body, and
leaves the command slot unset; and any failing construction received a truthy
command, so validation failure is possible only for truthy command values. -/
theorem C9_falsy_command_skips_validation :
    (∀ (hs : List (String × HeaderValue)) (body : String), ∃ f : StompFrame,
      StompFrame.init none (some hs) (some body) = Except.ok f ∧ f.cmd = none) ∧
    (∀ (hs : List (String × HeaderValue)) (body : String), ∃ f : StompFrame,
      StompFrame.init (some "") (some hs) (some body) = Except.ok f ∧ f.cmd = none) ∧
    (∀ (cmd : Option String) (hs : Option (List (String × HeaderValue)))
        (body : Option String) (e : PyError),
      StompFrame.init cmd hs body = Except.error e → ∃ c, cmd = some c ∧ c ≠ "") := by
  refine ⟨fun hs body => ⟨_, rfl, rfl⟩, fun hs body => ⟨_, rfl, rfl⟩, ?_⟩
  intro cmd hs body e h
  match cmd with
  | none =>
    rw [show StompFrame.init none hs body
        = Except.ok { cmd := none, headers := hs.getD [], body := body.getD "" } from rfl] at h
    exact Except.noConfusion h
  | some c =>
    by_cases hc : c = ""
    · subst hc
      rw [show StompFrame.init (some "") hs body
          = Except.ok { cmd := none, headers := hs.getD [], body := body.getD "" } from rfl] at h
      exact Except.noConfusion h
    · exact ⟨c, rfl, hc⟩

/-- Witness for C9: a frame built with command None, and a failing
construction whose command FOO is indeed truthy. -/
theorem C9_falsy_command_skips_validation_witness :
    (∃ f : StompFrame,
      StompFrame.init none (some []) (some "b") = Except.ok f ∧ f.cmd = none) ∧
    (StompFrame.init (some "FOO") none none
        = Except.error (PyError.invalidCommandError "FOO") ∧
      ∃ c, (some "FOO" : Option String) = some c ∧ c ≠ "") :=
  ⟨C9_falsy_command_skips_validation.1 [] "b",
   rfl,
   C9_falsy_command_skips_validation.2.2 (some "FOO") none none
     (PyError.invalidCommandError "FOO") rfl⟩

/-- C10: omitted constructor arguments default to empty values: an omitted
body gives the empty string whatever the headers, an omitted headers argument
gives the empty mapping whatever the body (the source creates a fresh dict per
call, so no mapping is shared between frames), and the MESSAGE builder with
body omitted yields a content-length header resolving to 0. -/
theorem C10_constructor_defaults :
    (∀ hs : List (String × HeaderValue), StompFrame.init none (some hs) none
        = Except.ok { cmd := none, headers := hs, body := "" }) ∧
    (∀ b : String, StompFrame.init none none (some b)
        = Except.ok { cmd := none, headers := [], body := b }) ∧
    (∃ f : StompFrame, MessageFrame.init none = Except.ok f ∧
      (f.headers.lookup "content-length").map (fun hv => hv.resolve f.body) = some "0") :=
  ⟨fun _ => rfl, fun _ => rfl, ⟨_, rfl, rfl⟩⟩
